import Mathlib

/-!
Verification of the HRreport classification-and-aggregation engine
(`src/HRreport.py`) against its natural-language specification.

The engine is shallowly embedded: cells of a spreadsheet column are an
inductive `Cell` type, numbers are exact rationals `ℚ` (the Python code
computes with IEEE doubles; all thresholds used by the code — 0.8, 0.5,
20 — and all statistics in the claims are exactly representable, and the
claims are about exact values, so the rational model is the faithful
reading), and pandas behaviour that the code relies on (default NA
markers of `read_excel`, dtype inference, `to_datetime`) is embedded for
the fragment of inputs the engine actually passes to it, documented at
each definition.
-/

/-- Raw cell of a spreadsheet as it stands in the file, before pandas
ingestion: a number, a piece of text, or a blank cell. -/
inductive RawCell where
  | num (q : ℚ) : RawCell
  | str (s : String) : RawCell
  | blank : RawCell
deriving DecidableEq, Repr

/-- Cell of an ingested pandas column: missing (`NaN`), a number, or a
string. Numbers are exact rationals; an integer-valued cell is one whose
rational has denominator 1 (pandas reads such a cell as an integer). -/
inductive Cell where
  | na : Cell
  | num (q : ℚ) : Cell
  | str (s : String) : Cell
deriving DecidableEq, Repr

/-- Whether a cell is missing (pandas `isnull` / dropped by `dropna`). -/
def Cell.isNA : Cell → Bool
  | .na => true
  | _ => false

/-- Whether a cell is a string (forces pandas `object` dtype). -/
def Cell.isStr : Cell → Bool
  | .str _ => true
  | _ => false

/-- Default NA markers of `pandas.read_excel` (its `na_values` default):
string cells equal to one of these are read as missing. Used by the
ingestion in `upload_excel` (line 1237, `pd.read_excel`). -/
def pandasDefaultNA : List String :=
  ["", "#N/A", "#N/A N/A", "#NA", "-1.#IND", "-1.#QNAN", "-NaN", "-nan",
   "1.#IND", "1.#QNAN", "<NA>", "N/A", "NA", "NULL", "NaN", "None",
   "n/a", "nan", "null"]

/-- Ingestion of one raw cell by `pd.read_excel` (line 1237): blanks and
default NA markers become missing, numbers stay numbers, other strings
stay strings. -/
def decodeCell : RawCell → Cell
  | .blank => .na
  | .num q => .num q
  | .str s => if s ∈ pandasDefaultNA then .na else .str s

/-- ASCII lower-casing of one character, as Python `str.lower` acts on
the ASCII column names appearing in this development. -/
def lowChar (c : Char) : Char :=
  if 65 ≤ c.toNat ∧ c.toNat ≤ 90 then Char.ofNat (c.toNat + 32) else c

/-- Python `str.lower` (on ASCII data). -/
def pyLower (s : String) : String := String.mk (s.data.map lowChar)

/-- Whitespace test matching Python `str.strip`'s default character set
on the inputs of this development. -/
def isWS (c : Char) : Bool :=
  c = ' ' || c = '\t' || c = '\n' || c = '\r' || c = '\x0b' || c = '\x0c'

/-- Python `str.strip`: drop leading and trailing whitespace. -/
def pyStrip (s : String) : String :=
  String.mk (((s.data.dropWhile isWS).reverse.dropWhile isWS).reverse)

/-- Python `pat in s` substring test. -/
def strContains (s pat : String) : Bool :=
  s.data.tails.any fun t => pat.data.isPrefixOf t

/-- Date-hint keywords of `detect_column_type` (line 92). -/
def dateKeywords : List String :=
  ["date", "time", "created", "updated", "birth", "hire", "start", "end"]

/-- Identifier-hint keywords of `detect_column_type` (line 104). -/
def idKeywords : List String := ["id", "code", "number"]

/-- Shape test for an ISO `yyyy-mm-dd` string, the date-string format
this model recognises. -/
def isoDateShape (l : List Char) : Bool :=
  match l with
  | [y1, y2, y3, y4, d1, m1, m2, d2, a1, a2] =>
      y1.isDigit && y2.isDigit && y3.isDigit && y4.isDigit &&
      d1 = '-' && m1.isDigit && m2.isDigit && d2 = '-' &&
      a1.isDigit && a2.isDigit
  | _ => false

/-- Modelled behaviour of `pd.to_datetime(..., errors='raise')` on one
cell (line 94 applies it to the first 10 cleaned values): numeric cells
are interpreted as epoch timestamps and parse successfully (pandas
treats numbers as nanosecond offsets from the epoch), and string cells
parse when they are ISO-date shaped. String-date parsing in pandas is
far richer; no theorem below depends on the value of this function at a
string cell. -/
def cellParsesAsDate : Cell → Bool
  | .na => true
  | .num _ => true
  | .str s => isoDateShape s.data

/-- Column dtype test `pd.api.types.is_numeric_dtype` (line 100): a
column read from a spreadsheet has a numeric dtype exactly when no cell
of it is a string (missing cells make it `float64`, still numeric);
`dropna` does not change the dtype, so the test on the cleaned series
equals this test on the full column. -/
def isNumericDtype (series : List Cell) : Bool :=
  series.all fun c => !c.isStr

/-- Column dtype test `pd.api.types.is_integer_dtype` (line 102): the
dtype is an integer dtype exactly when every cell of the full column is
an integer-valued number (one missing cell already forces `float64`;
`dropna` keeps the original dtype). -/
def isIntegerDtype (series : List Cell) : Bool :=
  series.all fun c =>
    match c with
    | .num q => q.den = 1
    | _ => false

/-- Number of distinct values, pandas `len(series.unique())`. -/
def uniqueCount (l : List Cell) : ℕ := l.dedup.length

/-- The six column types assigned by `detect_column_type`. -/
inductive ColType where
  | empty | identifier | numeric | categorical | date | text
deriving DecidableEq, Repr

/-- The cleaned series `series.dropna()` of line 85. -/
def cleanSeries (series : List Cell) : List Cell :=
  series.filter fun c => !c.isNA

/-- Date-hint condition of lines 92-94: the lowered, stripped column
name holds a date keyword and the first 10 cleaned values parse as
dates. -/
def dateBranch (clean_series : List Cell) (column_name_lower : String) : Bool :=
  (dateKeywords.any fun k => strContains column_name_lower k) &&
  ((clean_series.take 10).all cellParsesAsDate)

/-- Identifier condition of lines 102-104: integer dtype, distinct
ratio above 0.8, and an id keyword in the lowered, stripped name. -/
def identBranch (series clean_series : List Cell) (column_name_lower : String) : Bool :=
  isIntegerDtype series &&
  ((uniqueCount clean_series : ℚ) / clean_series.length > 0.8) &&
  (idKeywords.any fun k => strContains column_name_lower k)

/-- Categorical condition of line 112: at most 20 distinct values, or a
distinct ratio strictly below 0.5. -/
def catBranch (clean_series : List Cell) : Bool :=
  uniqueCount clean_series ≤ 20 ||
  ((uniqueCount clean_series : ℚ) / clean_series.length < 0.5)

/-- Column type detection, `detect_column_type` (lines 82-115): drop
missing values (empty → `empty`); on a date-keyword column name try to
parse the first 10 cleaned values as dates (success → `date`); numeric
dtype → `identifier` when the dtype is integer, the distinct ratio
exceeds 0.8 and the name holds an id keyword, else `numeric`; otherwise
`categorical` when the distinct count is at most 20 or the distinct
ratio is below 0.5, else `text`. -/
def detect_column_type (series : List Cell) (column_name : String) : ColType :=
  let clean_series := cleanSeries series
  if clean_series.isEmpty then .empty
  else
    let column_name_lower := pyStrip (pyLower column_name)
    if dateBranch clean_series column_name_lower then .date
    else if isNumericDtype series then
      if identBranch series clean_series column_name_lower then .identifier
      else .numeric
    else
      if catBranch clean_series then .categorical
      else .text

/-- Numeric coercion of one cell, `pd.to_numeric(..., errors='coerce')`
(line 180): numbers pass through, missing cells and unparseable strings
coerce to missing. A numeric-looking integer string parses; columns the
engine classifies `numeric` have numeric dtype and so hold no strings
at all, hence no theorem depends on the string case. -/
def coerceNumeric : Cell → Option ℚ
  | .na => none
  | .num q => some q
  | .str s => (s.toInt?).map fun n => (n : ℚ)

/-- Coerced numeric values of a column with failures dropped,
`pd.to_numeric(df[col], errors='coerce').dropna()` (line 180). -/
def numericData (cells : List Cell) : List ℚ :=
  cells.filterMap coerceNumeric

/-- Arithmetic mean of a list of rationals (`numeric_data.mean()`,
`np.mean(values)`); 0 on the empty list, which the code never takes. -/
def meanQ (l : List ℚ) : ℚ := l.sum / l.length

/-- Sum of squared deviations from the mean, shared by both standard
deviation conventions in the code. -/
def sqDevSum (l : List ℚ) : ℚ :=
  (l.map fun x => (x - meanQ l) ^ 2).sum

/-- Square of pandas `Series.std()` (line 189), which uses the sample
convention `ddof=1`: squared deviations divided by `n - 1`. The code
stores the square root of this value; two nonnegative standard
deviations are equal exactly when these squares are. Pandas yields NaN
for `n < 2`; the model returns 0 there, a case no theorem relies on. -/
def sampleVarQ (l : List ℚ) : ℚ :=
  if 2 ≤ l.length then sqDevSum l / (l.length - 1) else 0

/-- Square of numpy `np.std(values)` (line 249), which uses the
population convention `ddof=0`: squared deviations divided by `n`. -/
def popVarQ (l : List ℚ) : ℚ :=
  if 1 ≤ l.length then sqDevSum l / l.length else 0

/-- Median of a list of rationals, pandas `Series.median()` (line 188):
middle element of the sorted list, or the mean of the two middle
elements on even length; 0 on the empty list, never taken. -/
def medianQ (l : List ℚ) : ℚ :=
  let s := l.insertionSort (· ≤ ·)
  let n := s.length
  if n = 0 then 0
  else if n % 2 = 1 then s.getD (n / 2) 0
  else (s.getD (n / 2 - 1) 0 + s.getD (n / 2) 0) / 2

/-- Minimum of a list of rationals (`numeric_data.min()`, line 190). -/
def minQ (l : List ℚ) : ℚ :=
  match l with
  | [] => 0
  | x :: xs => xs.foldl min x

/-- Maximum of a list of rationals (`numeric_data.max()`, line 191). -/
def maxQ (l : List ℚ) : ℚ :=
  match l with
  | [] => 0
  | x :: xs => xs.foldl max x

/-- Per-instance numeric statistics stored at lines 186-193. The field
`stdSq` holds the square of the stored `std`. -/
structure NumericStats where
  mean : ℚ
  median : ℚ
  stdSq : ℚ
  min : ℚ
  max : ℚ
  count : ℕ
deriving DecidableEq, Repr

/-- The `numeric_stats` entry built at lines 186-193 from the coerced
values of one column instance. -/
def statsOf (numeric_data : List ℚ) : NumericStats :=
  { mean := meanQ numeric_data
    median := medianQ numeric_data
    stdSq := sampleVarQ numeric_data
    min := minQ numeric_data
    max := maxQ numeric_data
    count := numeric_data.length }

/-- The Python string representation `str(value)` of a non-missing cell
(line 202): strings pass through; integer-valued numbers print as
integers. Python prints non-integer floats in decimal; this model
prints the rational, a case no claim exercises (the keys of every
categorical column in the theorems below are strings or integers). -/
def pyStr : Cell → String
  | .na => "nan"
  | .str s => s
  | .num q => if q.den = 1 then toString q.num else toString q

/-- Pandas `value_counts()` of a column (line 196): each distinct
non-missing value with its number of occurrences. Pandas orders the
pairs by descending count; the engine only folds them into a sum map,
so the order never matters, and the model lists them in `dedup`
order. -/
def value_counts (cells : List Cell) : List (Cell × ℕ) :=
  ((cells.filter fun c => !c.isNA).dedup).map fun v =>
    (v, (cells.filter fun c => !c.isNA).count v)

/-- Association-list lookup for string-keyed maps, modelling Python
dict indexing. -/
def aget {β : Type _} : List (String × β) → String → Option β
  | [], _ => none
  | (k, v) :: rest, k' => if k = k' then some v else aget rest k'

/-- Association-list update modelling Python dict assignment
`m[k] = f(m.get(k))`: an existing key keeps its position and gets the
new value, a new key is appended (Python dicts preserve insertion
order). -/
def upsert {β : Type _} : List (String × β) → String → (Option β → β) → List (String × β)
  | [], k, f => [(k, f none)]
  | (k', v) :: rest, k, f =>
      if k' = k then (k', f (some v)) :: rest else (k', v) :: upsert rest k f

/-- One column instance: trimmed-able raw column name, its cells, and
the row count `len(df)` of its sheet. -/
structure ColInst where
  name : String
  cells : List Cell
  nRows : ℕ
deriving DecidableEq, Repr

/-- A pandas DataFrame as the engine sees it: a row count and ordered
named columns, each column holding `nRows` cells. -/
structure DF where
  nRows : ℕ
  cols : List (String × List Cell)
deriving DecidableEq, Repr

/-- Pandas `df.empty`: a DataFrame with no rows or no columns. -/
def DF.isEmptyDF (df : DF) : Bool := df.nRows = 0 || df.cols.isEmpty

/-- The column instances of one file's sheets in processing order
(lines 150-165): empty sheets are skipped (`if df.empty: continue`),
then each column of each remaining sheet is visited in order. -/
def sheetInstances (sheets : List (String × DF)) : List ColInst :=
  (sheets.map fun p =>
    if p.2.isEmptyDF then []
    else p.2.cols.map fun c => ColInst.mk c.1 c.2 p.2.nRows).flatten

/-- The `charts_data` accumulator of lines 122-127: pooled numeric
values, summed categorical counts, and pooled date cells, each keyed by
trimmed column name. -/
structure ChartsData where
  numeric : List (String × List ℚ)
  categorical : List (String × List (String × ℕ))
  dates : List (String × List Cell)
deriving DecidableEq, Repr

/-- The empty `charts_data` of lines 122-127. -/
def emptyCharts : ChartsData := ⟨[], [], []⟩

/-- Parseable date cells of a column with failures dropped,
`pd.to_datetime(df[col], errors='coerce').dropna()` (line 208), kept as
cells since only the pooling structure matters to the claims. -/
def dateData (cells : List Cell) : List Cell :=
  cells.filter fun c => !c.isNA && cellParsesAsDate c

/-- Effect of one column instance on `charts_data` (lines 179-213):
a numeric column with surviving coerced values extends the pooled list
under its trimmed name; a categorical column folds its `value_counts`
into the count map under the trimmed string of each value; a date
column with surviving parsed values extends the pooled date list; all
other types leave `charts_data` unchanged. -/
def chartsStep (cd : ChartsData) (inst : ColInst) : ChartsData :=
  let col_clean := pyStrip inst.name
  let col_type := detect_column_type inst.cells inst.name
  if col_type = .numeric then
    let numeric_data := numericData inst.cells
    if numeric_data.isEmpty then cd
    else { cd with numeric := upsert cd.numeric col_clean fun o => o.getD [] ++ numeric_data }
  else if col_type = .categorical then
    { cd with categorical := upsert cd.categorical col_clean (fun o =>
        (value_counts inst.cells).foldl
          (fun g p => upsert g (pyStrip (pyStr p.1)) fun c => c.getD 0 + p.2)
          (o.getD [])) }
  else if col_type = .date then
    let date_data := dateData inst.cells
    if date_data.isEmpty then cd
    else { cd with dates := upsert cd.dates col_clean fun o => o.getD [] ++ date_data }
  else cd

/-- The per-instance Data Quality Record of lines 215-221: null count
`df[col].isnull().sum()`, null percentage `null_count / len(df) * 100`,
and distinct non-missing count `df[col].nunique()`. -/
structure QualityRec where
  null_count : ℕ
  null_percentage : ℚ
  unique_count : ℕ
deriving DecidableEq, Repr

/-- Data Quality Record computed from one column instance alone
(lines 215-221). -/
def recordOf (inst : ColInst) : QualityRec :=
  let null_count := (inst.cells.filter Cell.isNA).length
  { null_count := null_count
    null_percentage := (null_count : ℚ) / inst.nRows * 100
    unique_count := (inst.cells.filter fun c => !c.isNA).dedup.length }

/-- The per-file `file_analysis` of lines 144-148: numeric statistics
and Data Quality Records, both keyed by trimmed column name within the
file. The source also initialises a `categorical_counts` dict that it
never writes; it is omitted. -/
structure FileAnalysis where
  numeric_stats : List (String × NumericStats)
  data_quality : List (String × QualityRec)
deriving DecidableEq, Repr

/-- Effect of one column instance on `file_analysis` (lines 179-221):
a numeric column with surviving coerced values assigns its statistics
under its trimmed name (a plain dict assignment, so a later instance
with the same trimmed name replaces an earlier one), and every instance
assigns its Data Quality Record likewise. -/
def statStep (fa : FileAnalysis) (inst : ColInst) : FileAnalysis :=
  let col_clean := pyStrip inst.name
  let col_type := detect_column_type inst.cells inst.name
  let fa1 :=
    if col_type = .numeric then
      let numeric_data := numericData inst.cells
      if numeric_data.isEmpty then fa
      else { fa with numeric_stats := upsert fa.numeric_stats col_clean fun _ => statsOf numeric_data }
    else fa
  { fa1 with data_quality := upsert fa1.data_quality col_clean fun _ => recordOf inst }

/-- The `file_analysis` recorded for one file (lines 144-223): the fold
of `statStep` over the file's column instances. -/
def fileAnalysisOf (sheets : List (String × DF)) : FileAnalysis :=
  (sheetInstances sheets).foldl statStep ⟨[], []⟩

/-- Per-sheet shape entry of lines 156-160. -/
structure SheetSummary where
  rows : ℕ
  columns : ℕ
  column_names : List String
deriving DecidableEq, Repr

/-- Per-file shape summary `file_summary` of lines 137-142. -/
structure FileSummary where
  filename : String
  sheets : List (String × SheetSummary)
  total_rows : ℕ
  total_columns : ℕ
deriving DecidableEq, Repr

/-- Folding one sheet into `file_summary` (lines 150-162): empty sheets
are skipped; a kept sheet appends its shape entry, adds its row count
to `total_rows`, and raises `total_columns` to its column count when
larger (`max(file_summary['total_columns'], cols)`). -/
def summaryStep (fs : FileSummary) (p : String × DF) : FileSummary :=
  if p.2.isEmptyDF then fs
  else
    { fs with
      sheets := fs.sheets ++ [(p.1, ⟨p.2.nRows, p.2.cols.length, p.2.cols.map Prod.fst⟩)]
      total_rows := fs.total_rows + p.2.nRows
      total_columns := max fs.total_columns p.2.cols.length }

/-- The `file_summary` recorded for one file (lines 137-162). -/
def fileSummaryOf (filename : String) (sheets : List (String × DF)) : FileSummary :=
  sheets.foldl summaryStep ⟨filename, [], 0, 0⟩

/-- The ingested corpus: file name to sheet name to DataFrame, in
insertion order, as built by `upload_excel`. -/
abbrev DFMap := List (String × List (String × DF))

/-- All column instances of the corpus in processing order
(lines 136-165). -/
def colInstances (dfs : DFMap) : List ColInst :=
  (dfs.map fun p => sheetInstances p.2).flatten

/-- The `summary` block of lines 227-234. -/
structure Summary where
  total_files : ℕ
  total_rows : ℕ
  total_columns : ℕ
  numeric_columns : ℕ
  categorical_columns : ℕ
  date_columns : ℕ
deriving DecidableEq, Repr

/-- Numeric insight lines of lines 246-250, modelled by their numeric
content: for each pooled numeric key with more than one value, the
column name, the pooled mean `np.mean(values)` and the square of the
pooled population standard deviation `np.std(values)` (the rendered
string also shows min and max, recoverable from the pooled list). -/
def insightNumericLines (cd : ChartsData) : List (String × ℚ × ℚ) :=
  cd.numeric.filterMap fun p =>
    if 1 < p.2.length then some (p.1, meanQ p.2, popVarQ p.2) else none

/-- First key of maximal count, Python `max(categories, key=categories.get)`
(line 256): the first key in iteration order whose count no later key
strictly exceeds. -/
def topCategory (m : List (String × ℕ)) : Option (String × ℕ) :=
  match m with
  | [] => none
  | p :: rest => some (rest.foldl (fun best q => if best.2 < q.2 then q else best) p)

/-- Categorical insight lines of lines 253-258, modelled by their
content: for each nonempty categorical key, the column name, the most
frequent value, and its percentage share of the key's total count. -/
def insightCategoricalLines (cd : ChartsData) : List (String × String × ℚ) :=
  cd.categorical.filterMap fun p =>
    match topCategory p.2 with
    | none => none
    | some top => some (p.1, top.1, (top.2 : ℚ) / ((p.2.map Prod.snd).sum : ℚ) * 100)

/-- The Analysis Result of lines 119-130 with the insight lines carried
as their numeric content; the three leading count insight lines repeat
`summary` fields and are not duplicated here. -/
structure Analysis where
  summary : Summary
  data_overview : List FileSummary
  charts_data : ChartsData
  detailed_analysis : List (String × FileAnalysis)
  insight_numeric : List (String × ℚ × ℚ)
  insight_categorical : List (String × String × ℚ)
deriving DecidableEq, Repr

/-- The analysis engine `analyze_excel_data` (lines 117-261). The
source interleaves one pass over files, sheets and columns that writes
the per-file summaries, the per-file analyses, the global `charts_data`
and the global totals into disjoint state; the model computes each of
those components by its own fold over the same instance stream, which
yields the identical final value. `total_rows` sums the row counts of
all non-empty sheets (line 155), `total_columns` counts distinct
trimmed column names across the corpus (lines 170-175 with line 230),
and the per-type column counts are the key counts of the three pooled
maps (lines 231-233). -/
def analyze_excel_data (dataframes : DFMap) : Analysis :=
  let charts := (colInstances dataframes).foldl chartsStep emptyCharts
  { summary :=
      { total_files := dataframes.length
        total_rows := (dataframes.map fun p =>
          ((p.2.filter fun q => !q.2.isEmptyDF).map fun q => q.2.nRows).sum).sum
        total_columns := (((colInstances dataframes).map fun i => pyStrip i.name).dedup).length
        numeric_columns := charts.numeric.length
        categorical_columns := charts.categorical.length
        date_columns := charts.dates.length }
    data_overview := dataframes.map fun p => fileSummaryOf p.1 p.2
    charts_data := charts
    detailed_analysis := dataframes.map fun p => (p.1, fileAnalysisOf p.2)
    insight_numeric := insightNumericLines charts
    insight_categorical := insightCategoricalLines charts }

/-- Sheet cleaning of `upload_excel` (lines 1239-1243): column names
are stripped, then rows in which every cell is missing are dropped,
then columns whose remaining cells are all missing are dropped. -/
def cleanDF (df : DF) : DF :=
  let cols0 := df.cols.map fun c => (pyStrip c.1, c.2)
  let keptRows := (List.range df.nRows).filter fun i =>
    !(cols0.all fun c => (c.2.getD i Cell.na).isNA)
  let cols1 := cols0.map fun c => (c.1, keptRows.map fun i => c.2.getD i Cell.na)
  let cols2 := cols1.filter fun c => !(c.2.all Cell.isNA)
  ⟨keptRows.length, cols2⟩

/-- Ingestion of one uploaded file (lines 1236-1266): each sheet is
cleaned and kept only when non-empty (`if not df.empty and len(df) > 0`);
a file with no kept sheets is dropped (`if sheets:`). -/
def ingestFile (sheets : List (String × DF)) : List (String × DF) :=
  sheets.filterMap fun p =>
    let c := cleanDF p.2
    if c.isEmptyDF then none else some (p.1, c)

/-- The corpus assembled by `upload_excel` (lines 1216-1266, the
`dataframes` dict): each file's ingested sheets, dropping files with no
surviving sheet. -/
def ingestCorpus (files : List (String × List (String × DF))) : DFMap :=
  files.filterMap fun p =>
    let kept := ingestFile p.2
    if kept.isEmpty then none else some (p.1, kept)

/-- Decision of `upload_excel` after ingestion (lines 1266-1283): with
no surviving file the distinguishable 400 error is returned and the
engine never runs; otherwise the engine's Analysis Result is
returned. -/
def upload_excel (files : List (String × List (String × DF))) : Except String Analysis :=
  let dataframes : DFMap := ingestCorpus files
  if dataframes.isEmpty then
    Except.error "No valid Excel files could be processed"
  else
    Except.ok (analyze_excel_data dataframes)

/-- Lookup of the summed count of one categorical value under one
column key in `charts_data['categorical']` (missing entries read 0, as
`dict.get(key, 0)` does). -/
def catCount (cd : ChartsData) (k v : String) : ℕ :=
  (aget ((aget cd.categorical k).getD []) v).getD 0

/-- Contribution of one column instance to the summed categorical count
of value `v` under column key `k` (lines 195-204): zero unless the
instance is classified categorical and carries key `k`, else the total
of the `value_counts` entries whose trimmed string form is `v`. -/
def catContrib (inst : ColInst) (k v : String) : ℕ :=
  if detect_column_type inst.cells inst.name = .categorical ∧ pyStrip inst.name = k then
    (((value_counts inst.cells).filter fun p => pyStrip (pyStr p.1) = v).map Prod.snd).sum
  else 0

/-- Concatenation of the coerced numeric value lists of the instances
carrying column key `k` that are classified numeric, in processing
order — the pooled list the spec prescribes for the Merger. -/
def pooledNumeric (l : List ColInst) (k : String) : List ℚ :=
  (l.map fun i =>
    if detect_column_type i.cells i.name = .numeric ∧ pyStrip i.name = k then
      numericData i.cells
    else []).flatten

/-- Combination of an optional pooled list with a new contribution:
an empty contribution leaves the entry alone, otherwise the entry
(defaulting to `[]`) is extended — the shape of lines 182-183. -/
def combineOpt (o : Option (List ℚ)) (vs : List ℚ) : Option (List ℚ) :=
  if vs.isEmpty then o else some (o.getD [] ++ vs)

/-- The Data Quality Record of the last instance in `l` whose trimmed
name is `k`, if any — the survivor of the repeated dict assignment of
lines 217-221. -/
def lastRecord (l : List ColInst) (k : String) : Option QualityRec :=
  l.foldl (fun acc i => if pyStrip i.name = k then some (recordOf i) else acc) none

/-- Fixture for C1: the raw Salary column of the spec scenario. -/
def c1raw : List RawCell :=
  [.num 50000, .num 60000, .num 70000, .str "N/A", .num 80000]

/-- Fixture for C1: the ingested Salary column. -/
def c1cells : List Cell := c1raw.map decodeCell

/-- Fixture for C1: a one-sheet file holding the Salary column. -/
def c1df : DF := ⟨5, [("Salary", c1cells)]⟩

/-- Fixture for C1: the one-file corpus. -/
def c1corpus : DFMap := [("employees.xlsx", [("Sheet1", c1df)])]

/-- Fixture builder: `n` distinct short strings, one per index. -/
def distinctStrs (n : ℕ) : List Cell :=
  (List.range n).map fun i => Cell.str (String.mk ('v' :: Nat.toDigits 10 i))

/-- Fixture for the C2 counterexample: 21 distinct strings, each
appearing twice — 42 values, distinct ratio exactly one half. -/
def c2cells : List Cell := distinctStrs 21 ++ distinctStrs 21

/-- Fixture for the C2 witness: 20 distinct strings, once each. -/
def c2wcells : List Cell := distinctStrs 20

/-- Fixture for the C3 counterexample: five distinct integers. -/
def c3cells : List Cell := [.num 1, .num 2, .num 3, .num 4, .num 5]

/-- Fixture for the C3 witness: three distinct integers. -/
def c3wcells : List Cell := [.num 1, .num 2, .num 3]

/-- Fixture for the C4 witness: first file, Salary values 1 and 3 (and
one missing cell, so the column dtype is float). -/
def c4dfA : DF := ⟨3, [("Salary", [.num 1, .num 3, .na])]⟩

/-- Fixture for the C4 witness: second file, Salary value 5. -/
def c4dfB : DF := ⟨2, [("Salary", [.num 5, .na])]⟩

/-- Fixture for the C4 witness: the two-file corpus. -/
def c4corpus : DFMap :=
  [("a.xlsx", [("S", c4dfA)]), ("b.xlsx", [("S", c4dfB)])]

/-- Fixture for the C6 witness: one file whose only sheet is entirely
missing values, so cleaning leaves nothing usable. -/
def c6files : List (String × List (String × DF)) :=
  [("blank.xlsx", [("S", ⟨2, [("A", [.na, .na]), ("B", [.na, .na])]⟩)])]

/-- Fixture for the C7 witness: one sheet of two rows whose column has
one missing cell. -/
def c7sheets : List (String × DF) := [("S", ⟨2, [("A", [.na, .str "x"])]⟩)]

/-- Fixture for the C7 witness: its single column instance. -/
def c7inst : ColInst := ⟨"A", [.na, .str "x"], 2⟩

/-- Fixture for C8: a numeric Score column whose coerced values are 0
and 2 (one missing cell keeps the dtype float). -/
def c8df : DF := ⟨3, [("Score", [.num 0, .num 2, .na])]⟩

/-- Fixture for C8: the one-file corpus. -/
def c8corpus : DFMap := [("scores.xlsx", [("Sheet1", c8df)])]

/-- Fixture for the C9 counterexample: first sheet, a Name column with
one missing of two rows. -/
def c9inst1 : ColInst := ⟨"Name", [.str "x", .na], 2⟩

/-- Fixture for the C9 counterexample: second sheet, a Name column with
four present values. -/
def c9inst2 : ColInst := ⟨"Name", [.str "a", .str "a", .str "b", .str "c"], 4⟩

/-- Fixture for the C9 counterexample: one file with the two sheets. -/
def c9sheets : List (String × DF) :=
  [("S1", ⟨2, [("Name", c9inst1.cells)]⟩), ("S2", ⟨4, [("Name", c9inst2.cells)]⟩)]

/-- An empty cleaned series classifies as `empty` (line 86). -/
theorem detect_of_empty (series : List Cell) (column_name : String)
    (h0 : (cleanSeries series).isEmpty = true) :
    detect_column_type series column_name = .empty := by
  simp [detect_column_type, h0]

/-- A firing date branch classifies as `date` (lines 92-95). -/
theorem detect_of_date (series : List Cell) (column_name : String)
    (h0 : (cleanSeries series).isEmpty = false)
    (h1 : dateBranch (cleanSeries series) (pyStrip (pyLower column_name)) = true) :
    detect_column_type series column_name = .date := by
  simp [detect_column_type, h0, h1]

/-- A numeric-dtype column with a firing identifier condition
classifies as `identifier` (lines 100-105). -/
theorem detect_of_ident (series : List Cell) (column_name : String)
    (h0 : (cleanSeries series).isEmpty = false)
    (h1 : dateBranch (cleanSeries series) (pyStrip (pyLower column_name)) = false)
    (h2 : isNumericDtype series = true)
    (h3 : identBranch series (cleanSeries series) (pyStrip (pyLower column_name)) = true) :
    detect_column_type series column_name = .identifier := by
  simp [detect_column_type, h0, h1, h2, h3]

/-- A numeric-dtype column with a silent identifier condition
classifies as `numeric` (lines 100-106). -/
theorem detect_of_num (series : List Cell) (column_name : String)
    (h0 : (cleanSeries series).isEmpty = false)
    (h1 : dateBranch (cleanSeries series) (pyStrip (pyLower column_name)) = false)
    (h2 : isNumericDtype series = true)
    (h3 : identBranch series (cleanSeries series) (pyStrip (pyLower column_name)) = false) :
    detect_column_type series column_name = .numeric := by
  simp [detect_column_type, h0, h1, h2, h3]

/-- A non-numeric, non-date column with a firing categorical condition
classifies as `categorical` (lines 108-113). -/
theorem detect_of_cat (series : List Cell) (column_name : String)
    (h0 : (cleanSeries series).isEmpty = false)
    (h1 : dateBranch (cleanSeries series) (pyStrip (pyLower column_name)) = false)
    (h2 : isNumericDtype series = false)
    (h3 : catBranch (cleanSeries series) = true) :
    detect_column_type series column_name = .categorical := by
  simp [detect_column_type, h0, h1, h2, h3]

/-- A non-numeric, non-date column with a silent categorical condition
classifies as `text` (line 115). -/
theorem detect_of_text (series : List Cell) (column_name : String)
    (h0 : (cleanSeries series).isEmpty = false)
    (h1 : dateBranch (cleanSeries series) (pyStrip (pyLower column_name)) = false)
    (h2 : isNumericDtype series = false)
    (h3 : catBranch (cleanSeries series) = false) :
    detect_column_type series column_name = .text := by
  simp [detect_column_type, h0, h1, h2, h3]

/-- Looking up the key just written by `upsert` yields the new value. -/
theorem aget_upsert_self {β : Type _} (m : List (String × β)) (k : String)
    (f : Option β → β) : aget (upsert m k f) k = some (f (aget m k)) := by
  induction m with
  | nil => simp [upsert, aget]
  | cons p rest ih =>
      by_cases h : p.1 = k
      · simp [upsert, aget, h]
      · simp [upsert, aget, h, ih]

/-- Looking up a different key after `upsert` is unchanged. -/
theorem aget_upsert_ne {β : Type _} (m : List (String × β)) (k k' : String)
    (f : Option β → β) (h : k' ≠ k) : aget (upsert m k f) k' = aget m k' := by
  have hkk : ¬ k = k' := fun hh => h hh.symm
  induction m with
  | nil => simp [upsert, aget, hkk]
  | cons p rest ih =>
      obtain ⟨a, b⟩ := p
      by_cases h1 : a = k
      · subst h1
        simp [upsert, aget, hkk]
      · simp [upsert, aget, h1, ih]

/-- A successful `aget` witnesses list membership. -/
theorem mem_of_aget {β : Type _} {m : List (String × β)} {k : String} {v : β}
    (h : aget m k = some v) : (k, v) ∈ m := by
  induction m with
  | nil => simp [aget] at h
  | cons p rest ih =>
      obtain ⟨a, b⟩ := p
      by_cases h1 : a = k
      · subst h1
        simp [aget] at h
        subst h
        exact List.mem_cons_self _ _
      · simp [aget, h1] at h
        exact List.mem_cons_of_mem _ (ih h)

/-- Folding the `value_counts` pairs of one instance into a count map
(lines 200-204) adds, at each value key, the total of the entries whose
trimmed string form is that key. -/
theorem aget_vcfold (items : List (Cell × ℕ)) (g : List (String × ℕ)) (v : String) :
    (aget (items.foldl
        (fun g p => upsert g (pyStrip (pyStr p.1)) fun c => c.getD 0 + p.2) g) v).getD 0 =
    (aget g v).getD 0 +
      ((items.filter fun p => pyStrip (pyStr p.1) = v).map Prod.snd).sum := by
  induction items generalizing g with
  | nil => simp
  | cons p rest ih =>
      rw [List.foldl_cons, ih]
      by_cases h : pyStrip (pyStr p.1) = v
      · rw [h, aget_upsert_self]
        simp [List.filter_cons, h]
        omega
      · rw [aget_upsert_ne _ _ _ _ fun hh => h hh.symm]
        simp [List.filter_cons, h]

/-- Effect of one instance on one summed categorical count: the count
grows by exactly the instance's contribution (lines 195-204). -/
theorem catCount_chartsStep (cd : ChartsData) (inst : ColInst) (k v : String) :
    catCount (chartsStep cd inst) k v = catCount cd k v + catContrib inst k v := by
  rcases hdet : detect_column_type inst.cells inst.name with _ | _ | _ | _ | _ | _
  case numeric =>
    by_cases hnd : (numericData inst.cells).isEmpty
    · simp [chartsStep, hdet, hnd, catContrib, catCount]
    · simp [chartsStep, hdet, hnd, catContrib, catCount]
  case categorical =>
    by_cases hk : pyStrip inst.name = k
    · have hup := aget_upsert_self cd.categorical (pyStrip inst.name) fun o =>
        (value_counts inst.cells).foldl
          (fun g p => upsert g (pyStrip (pyStr p.1)) fun c => c.getD 0 + p.2) (o.getD [])
      rw [hk] at hup
      simp [chartsStep, hdet, hk, catCount, catContrib, hup, aget_vcfold]
    · have hup := aget_upsert_ne cd.categorical (pyStrip inst.name) k
        (fun o => (value_counts inst.cells).foldl
          (fun g p => upsert g (pyStrip (pyStr p.1)) fun c => c.getD 0 + p.2) (o.getD []))
        (fun hh => hk hh.symm)
      simp [chartsStep, hdet, hk, catCount, catContrib, hup]
  case date =>
    by_cases hdd : (dateData inst.cells).isEmpty
    · simp [chartsStep, hdet, hdd, catContrib, catCount]
    · simp [chartsStep, hdet, hdd, catContrib, catCount]
  all_goals simp [chartsStep, hdet, catContrib, catCount]

/-- Summed categorical counts after folding a stream of instances: the
base count plus every instance's contribution. -/
theorem catCount_fold (l : List ColInst) (cd : ChartsData) (k v : String) :
    catCount (l.foldl chartsStep cd) k v =
      catCount cd k v + (l.map fun i => catContrib i k v).sum := by
  induction l generalizing cd with
  | nil => simp
  | cons i rest ih =>
      rw [List.foldl_cons, ih, catCount_chartsStep, List.map_cons, List.sum_cons]
      omega

/-- The instance stream of a two-file corpus is the concatenation of
the two files' streams. -/
theorem colInstances_pair (A B : String × List (String × DF)) :
    colInstances [A, B] = sheetInstances A.2 ++ sheetInstances B.2 := by
  simp [colInstances]

/-- C5: categorical merging is commutative — for any two sources A and
B, the summed per-value count mapping of `charts_data['categorical']`
after analysing `[A, B]` agrees, at every column key `k` and value `v`,
with the one after analysing `[B, A]`. -/
theorem hr_c5_categorical_merge_commutes
    (A B : String × List (String × DF)) (k v : String) :
    catCount (analyze_excel_data [A, B]).charts_data k v =
    catCount (analyze_excel_data [B, A]).charts_data k v := by
  have h1 : (analyze_excel_data [A, B]).charts_data =
      (colInstances [A, B]).foldl chartsStep emptyCharts := rfl
  have h2 : (analyze_excel_data [B, A]).charts_data =
      (colInstances [B, A]).foldl chartsStep emptyCharts := rfl
  rw [h1, h2, colInstances_pair, colInstances_pair, catCount_fold, catCount_fold,
    List.map_append, List.map_append, List.sum_append, List.sum_append]
  omega

/-- Combination with an empty contribution is the identity, and
combinations compose by concatenation. -/
theorem combineOpt_assoc (o : Option (List ℚ)) (a b : List ℚ) :
    combineOpt (combineOpt o a) b = combineOpt o (a ++ b) := by
  rcases a with _ | ⟨x, xs⟩ <;> rcases b with _ | ⟨y, ys⟩ <;>
    simp [combineOpt, List.append_assoc]

/-- Effect of one instance on one pooled numeric entry (lines 179-183):
a numeric instance of that key extends the entry with its coerced
values, anything else leaves it alone. -/
theorem aget_numeric_chartsStep (cd : ChartsData) (inst : ColInst) (k : String) :
    aget (chartsStep cd inst).numeric k =
      combineOpt (aget cd.numeric k)
        (if detect_column_type inst.cells inst.name = .numeric ∧ pyStrip inst.name = k
          then numericData inst.cells else []) := by
  rcases hdet : detect_column_type inst.cells inst.name with _ | _ | _ | _ | _ | _
  case numeric =>
    by_cases hnd : (numericData inst.cells).isEmpty
    · have hnil : numericData inst.cells = [] := by simpa using hnd
      simp [chartsStep, hdet, hnd, hnil, combineOpt]
    · by_cases hk : pyStrip inst.name = k
      · have hup := aget_upsert_self cd.numeric (pyStrip inst.name)
          fun o => o.getD [] ++ numericData inst.cells
        rw [hk] at hup
        simp [chartsStep, hdet, hnd, hk, hup, combineOpt]
      · have hup := aget_upsert_ne cd.numeric (pyStrip inst.name) k
          (fun o => o.getD [] ++ numericData inst.cells) (fun hh => hk hh.symm)
        simp [chartsStep, hdet, hnd, hk, hup, combineOpt]
  case date =>
    by_cases hdd : (dateData inst.cells).isEmpty
    · simp [chartsStep, hdet, hdd, combineOpt]
    · simp [chartsStep, hdet, hdd, combineOpt]
  all_goals simp [chartsStep, hdet, combineOpt]

/-- Pooled numeric entries after folding a stream of instances: the
base entry combined with the concatenated contributions. -/
theorem aget_numeric_fold (l : List ColInst) (cd : ChartsData) (k : String) :
    aget ((l.foldl chartsStep cd).numeric) k =
      combineOpt (aget cd.numeric k) (pooledNumeric l k) := by
  induction l generalizing cd with
  | nil => simp [pooledNumeric, combineOpt]
  | cons i rest ih =>
      rw [List.foldl_cons, ih, aget_numeric_chartsStep, combineOpt_assoc]
      have hp : pooledNumeric (i :: rest) k =
          (if detect_column_type i.cells i.name = .numeric ∧ pyStrip i.name = k
            then numericData i.cells else []) ++ pooledNumeric rest k := by
        simp [pooledNumeric]
      rw [hp]

/-- C4: for every column key whose pooled numeric entry exists in the
merged `charts_data`, that entry is exactly the concatenation of the
per-instance coerced value lists of the numeric instances carrying the
key, so the mean the insight line reports for the key is the mean of
the full concatenated list, never an average of per-source means. -/
theorem hr_c4_pooled_numeric_mean (dfs : DFMap) (k : String) (vs : List ℚ)
    (h : aget (analyze_excel_data dfs).charts_data.numeric k = some vs) :
    vs = pooledNumeric (colInstances dfs) k ∧
    meanQ vs = meanQ (pooledNumeric (colInstances dfs) k) ∧
    (1 < vs.length →
      (k, meanQ (pooledNumeric (colInstances dfs) k), popVarQ vs) ∈
        (analyze_excel_data dfs).insight_numeric) := by
  have h0 := h
  have hch : (analyze_excel_data dfs).charts_data =
      (colInstances dfs).foldl chartsStep emptyCharts := rfl
  rw [hch, aget_numeric_fold] at h
  have hnone : aget (emptyCharts.numeric) k = none := rfl
  rw [hnone] at h
  have hvs : vs = pooledNumeric (colInstances dfs) k := by
    rcases hp : pooledNumeric (colInstances dfs) k with _ | ⟨x, xs⟩
    · rw [hp] at h
      simp [combineOpt] at h
    · rw [hp] at h
      simp [combineOpt] at h
      simp [h]
  refine ⟨hvs, by rw [hvs], fun hlen => ?_⟩
  have hmem : (k, vs) ∈ (analyze_excel_data dfs).charts_data.numeric := mem_of_aget h0
  have hins : (analyze_excel_data dfs).insight_numeric =
      insightNumericLines (analyze_excel_data dfs).charts_data := rfl
  rw [hins]
  refine List.mem_filterMap.mpr ⟨(k, vs), hmem, ?_⟩
  simp [hlen, ← hvs]

/-- Witness for C4: on the concrete two-file corpus whose Salary
instances carry coerced values [1, 3] and [5], the pooled entry exists
and equals the concatenation. -/
theorem hr_c4_pooled_numeric_mean_witness :
    aget (analyze_excel_data c4corpus).charts_data.numeric "Salary" = some [1, 3, 5] ∧
    [(1 : ℚ), 3, 5] = pooledNumeric (colInstances c4corpus) "Salary" :=
  have h : aget (analyze_excel_data c4corpus).charts_data.numeric "Salary" =
      some [1, 3, 5] := by decide
  ⟨h, (hr_c4_pooled_numeric_mean c4corpus "Salary" [1, 3, 5] h).1⟩

/-- Folding the last-writer tracker from any base: the stream's own
last record when one exists, else the base. -/
theorem lastRecord_base (l : List ColInst) (k : String) (acc : Option QualityRec) :
    l.foldl (fun acc i => if pyStrip i.name = k then some (recordOf i) else acc) acc =
      match lastRecord l k with
      | some r => some r
      | none => acc := by
  induction l generalizing acc with
  | nil => simp [lastRecord]
  | cons i rest ih =>
      have hcons : lastRecord (i :: rest) k =
          rest.foldl (fun acc i => if pyStrip i.name = k then some (recordOf i) else acc)
            (if pyStrip i.name = k then some (recordOf i) else none) := by
        simp [lastRecord]
      rw [List.foldl_cons, ih, hcons, ih]
      rcases hr : lastRecord rest k with _ | r
      · by_cases hik : pyStrip i.name = k
        · simp [hik]
        · simp [hik]
      · simp

/-- Data Quality Records after folding a stream of instances: the dict
assignment of lines 217-221 keeps, for each trimmed name, the record of
the last instance carrying it, computed from that instance alone. -/
theorem aget_dq_fold (l : List ColInst) (fa : FileAnalysis) (k : String) :
    aget ((l.foldl statStep fa).data_quality) k =
      match lastRecord l k with
      | some r => some r
      | none => aget fa.data_quality k := by
  induction l generalizing fa with
  | nil => simp [lastRecord]
  | cons i rest ih =>
      rw [List.foldl_cons, ih]
      have hstep : (statStep fa i).data_quality =
          upsert fa.data_quality (pyStrip i.name) fun _ => recordOf i := by
        rcases hdet : detect_column_type i.cells i.name with _ | _ | _ | _ | _ | _
        case numeric =>
          by_cases hnd : (numericData i.cells).isEmpty
          · simp [statStep, hdet, hnd]
          · simp [statStep, hdet, hnd]
        all_goals simp [statStep, hdet]
      have hcons : lastRecord (i :: rest) k =
          rest.foldl (fun acc i => if pyStrip i.name = k then some (recordOf i) else acc)
            (if pyStrip i.name = k then some (recordOf i) else none) := by
        simp [lastRecord]
      rw [hcons, lastRecord_base]
      rcases hr : lastRecord rest k with _ | r
      · by_cases hik : pyStrip i.name = k
        · rw [hstep, hik]
          simp [aget_upsert_self, hik]
        · rw [hstep]
          simp [aget_upsert_ne fa.data_quality (pyStrip i.name) k _ fun hh => hik hh.symm, hik]
      · simp

/-- Last-writer tracker over a cons. -/
theorem lastRecord_cons (i : ColInst) (rest : List ColInst) (k : String) :
    lastRecord (i :: rest) k =
      match lastRecord rest k with
      | some r => some r
      | none => if pyStrip i.name = k then some (recordOf i) else none := by
  have h := lastRecord_base rest k (if pyStrip i.name = k then some (recordOf i) else none)
  simpa [lastRecord] using h

/-- A surviving last record comes from one instance of the stream whose
trimmed name is the key. -/
theorem lastRecord_mem (l : List ColInst) (k : String) (r : QualityRec)
    (h : lastRecord l k = some r) : ∃ i ∈ l, pyStrip i.name = k ∧ r = recordOf i := by
  induction l with
  | nil => simp [lastRecord] at h
  | cons i rest ih =>
      rw [lastRecord_cons] at h
      rcases hr : lastRecord rest k with _ | r2
      · rw [hr] at h
        by_cases hik : pyStrip i.name = k
        · simp [hik] at h
          exact ⟨i, List.mem_cons_self _ _, hik, h.symm⟩
        · simp [hik] at h
      · rw [hr] at h
        simp at h
        obtain ⟨j, hj, hjk, hjr⟩ := ih (h ▸ hr)
        exact ⟨j, List.mem_cons_of_mem _ hj, hjk, hjr⟩

/-- Every instance of the stream comes from a non-empty sheet, so its
row count is positive (the `if df.empty: continue` of line 151). -/
theorem nRows_pos_of_mem (sheets : List (String × DF)) (inst : ColInst)
    (h : inst ∈ sheetInstances sheets) : 0 < inst.nRows := by
  rw [sheetInstances, List.mem_flatten] at h
  obtain ⟨l, hl, hil⟩ := h
  rw [List.mem_map] at hl
  obtain ⟨p, hp, rfl⟩ := hl
  by_cases he : p.2.isEmptyDF
  · simp [he] at hil
  · simp [he, List.mem_map] at hil
    obtain ⟨c, cs, hmem, hinst⟩ := hil
    simp [DF.isEmptyDF] at he
    rw [← hinst]
    exact Nat.pos_of_ne_zero he.1

/-- C9 (amended): each Data Quality Record is computed from one column
instance alone and records are never merged, but within a file the
records are keyed by trimmed column name, so of several instances
sharing a trimmed name only the last-processed one's record survives:
the stored record for key `k` is exactly the record of the last
instance of the file's stream carrying `k`. -/
theorem hr_c9_data_quality_last_write (sheets : List (String × DF)) (k : String) :
    aget (fileAnalysisOf sheets).data_quality k = lastRecord (sheetInstances sheets) k := by
  have h := aget_dq_fold (sheetInstances sheets) ⟨[], []⟩ k
  rw [fileAnalysisOf, h]
  rcases hr : lastRecord (sheetInstances sheets) k with _ | r
  · simp [aget]
  · simp

/-- Counterexample for C9: one file with two sheets that both carry a
column named Name. The file's Data Quality map keeps a single entry for
Name, holding the second instance's record (null count 0); the first
instance's record (null count 1) is overwritten, so the two instances
do not each retain their own record as the claim states. -/
theorem hr_c9_counterexample :
    ((fileAnalysisOf c9sheets).data_quality.map fun p => (p.1, p.2.null_count)) =
      [("Name", 0)] ∧
    (recordOf c9inst1).null_count = 1 ∧
    (recordOf c9inst2).null_count = 0 :=
  ⟨by decide, by decide, by decide⟩

/-- C7: every stored Data Quality Record belongs to an instance of a
non-empty sheet, so the divisor is positive and never zero (empty
sheets are skipped before the record is computed), and its null
percentage is exactly 100 times the null count over the row count. -/
theorem hr_c7_null_percentage (sheets : List (String × DF)) (k : String) (rec : QualityRec)
    (h : aget (fileAnalysisOf sheets).data_quality k = some rec) :
    ∃ inst ∈ sheetInstances sheets,
      0 < inst.nRows ∧
      rec.null_count = (inst.cells.filter Cell.isNA).length ∧
      rec.null_percentage = 100 * (rec.null_count : ℚ) / inst.nRows := by
  have hfold := aget_dq_fold (sheetInstances sheets) ⟨[], []⟩ k
  rw [fileAnalysisOf, hfold] at h
  rcases hr : lastRecord (sheetInstances sheets) k with _ | r
  · rw [hr] at h
    simp [aget] at h
  · rw [hr] at h
    simp at h
    obtain ⟨i, hi, hik, hrec⟩ := lastRecord_mem _ _ _ hr
    refine ⟨i, hi, nRows_pos_of_mem _ _ hi, ?_, ?_⟩
    · rw [← h, hrec]
      rfl
    · rw [← h, hrec]
      simp [recordOf]
      ring

/-- Shape totals of the per-file summary fold from any base: rows add
up, column counts take the running maximum. -/
theorem fileSummary_fold (sheets : List (String × DF)) (fs0 : FileSummary) :
    (sheets.foldl summaryStep fs0).total_rows =
      fs0.total_rows + ((sheets.filter fun p => !p.2.isEmptyDF).map fun p => p.2.nRows).sum ∧
    (sheets.foldl summaryStep fs0).total_columns =
      max fs0.total_columns
        (((sheets.filter fun p => !p.2.isEmptyDF).map fun p => p.2.cols.length).foldr max 0) := by
  induction sheets generalizing fs0 with
  | nil => simp
  | cons p rest ih =>
      rw [List.foldl_cons]
      by_cases he : p.2.isEmptyDF
      · have hstep : summaryStep fs0 p = fs0 := by simp [summaryStep, he]
        rw [hstep]
        simpa [List.filter_cons, he] using ih fs0
      · have h := ih (summaryStep fs0 p)
        have hr : (summaryStep fs0 p).total_rows = fs0.total_rows + p.2.nRows := by
          simp [summaryStep, he]
        have hcl : (summaryStep fs0 p).total_columns =
            max fs0.total_columns p.2.cols.length := by
          simp [summaryStep, he]
        constructor
        · rw [h.1, hr]
          simp [List.filter_cons, he]
          omega
        · rw [h.2, hcl]
          simp [List.filter_cons, he, Nat.max_assoc]

/-- C10 (implicit): in the per-file shape summary, `total_rows` is the
sum of the non-empty sheets' row counts and `total_columns` is the
maximum column count over the file's non-empty sheets (neither a sum
over sheets nor a distinct-name count). -/
theorem hr_c10_file_shape_summary (filename : String) (sheets : List (String × DF)) :
    (fileSummaryOf filename sheets).total_rows =
      ((sheets.filter fun p => !p.2.isEmptyDF).map fun p => p.2.nRows).sum ∧
    (fileSummaryOf filename sheets).total_columns =
      ((sheets.filter fun p => !p.2.isEmptyDF).map fun p => p.2.cols.length).foldr max 0 := by
  have h := fileSummary_fold sheets ⟨filename, [], 0, 0⟩
  simpa using h

/-- A sheet list holding one non-empty sheet yields a non-empty
instance stream. -/
theorem sheetInstances_ne_nil (sheets : List (String × DF)) (q : String × DF)
    (hq : q ∈ sheets) (hne : ¬ q.2.isEmptyDF = true) : sheetInstances sheets ≠ [] := by
  intro hnil
  rw [sheetInstances, List.flatten_eq_nil_iff] at hnil
  have hmem : (if q.2.isEmptyDF then []
      else q.2.cols.map fun c => ColInst.mk c.1 c.2 q.2.nRows) ∈
      sheets.map fun p => if p.2.isEmptyDF then []
        else p.2.cols.map fun c => ColInst.mk c.1 c.2 p.2.nRows :=
    List.mem_map_of_mem _ hq
  have h0 := hnil _ hmem
  rw [if_neg hne] at h0
  have hcols : q.2.cols = [] := by
    rcases hc : q.2.cols with _ | ⟨c, cs⟩
    · rfl
    · rw [hc] at h0
      simp at h0
  simp [DF.isEmptyDF, hcols] at hne

/-- C6: when the ingested corpus carries zero usable column instances
(no sources at all, or every sheet empty after cleaning), the upload
endpoint returns the distinguishable no-data error instead of an
Analysis Result with zeroed statistics — the engine is never invoked. -/
theorem hr_c6_no_data_error (files : List (String × List (String × DF)))
    (h : colInstances (ingestCorpus files) = []) :
    upload_excel files = Except.error "No valid Excel files could be processed" := by
  rcases hc : ingestCorpus files with _ | ⟨p, rest⟩
  · simp [upload_excel, hc]
  · exfalso
    have hp : p ∈ ingestCorpus files := by
      rw [hc]
      exact List.mem_cons_self _ _
    rw [ingestCorpus, List.mem_filterMap] at hp
    obtain ⟨a, ha, hfa⟩ := hp
    by_cases hk : (ingestFile a.2).isEmpty
    · simp [hk] at hfa
    · rw [if_neg hk] at hfa
      have hfa2 : (a.1, ingestFile a.2) = p := Option.some_inj.mp hfa
      rcases hq : ingestFile a.2 with _ | ⟨q, ktail⟩
      · simp [hq] at hk
      · have hqm : q ∈ ingestFile a.2 := by
          rw [hq]
          exact List.mem_cons_self _ _
        rw [ingestFile, List.mem_filterMap] at hqm
        obtain ⟨b, hb, hfb⟩ := hqm
        by_cases hce : (cleanDF b.2).isEmptyDF
        · simp [hce] at hfb
        · rw [if_neg hce] at hfb
          have hfb2 : (b.1, cleanDF b.2) = q := Option.some_inj.mp hfb
          have hq2 : ¬ q.2.isEmptyDF = true := by
            rw [← hfb2]
            simpa using hce
          have hpq : q ∈ p.2 := by
            rw [← hfa2, hq]
            exact List.mem_cons_self _ _
          have hsi : sheetInstances p.2 = [] := by
            rw [colInstances, List.flatten_eq_nil_iff] at h
            exact h _ (List.mem_map_of_mem _ (hc ▸ List.mem_cons_self p rest))
          exact sheetInstances_ne_nil p.2 q hpq hq2 hsi

/-- Witness for C6: a file whose only sheet is all-missing cleans away
entirely, leaving zero column instances, and the upload returns the
no-data error. -/
theorem hr_c6_no_data_error_witness :
    colInstances (ingestCorpus c6files) = [] ∧
    upload_excel c6files = Except.error "No valid Excel files could be processed" :=
  have h : colInstances (ingestCorpus c6files) = [] := by decide
  ⟨h, hr_c6_no_data_error c6files h⟩

/-- Witness for C7: a two-row column with one missing cell yields a
stored record whose null percentage is 100 times 1 over 2. -/
theorem hr_c7_null_percentage_witness :
    aget (fileAnalysisOf c7sheets).data_quality "A" = some (recordOf c7inst) ∧
    ∃ inst ∈ sheetInstances c7sheets,
      0 < inst.nRows ∧
      (recordOf c7inst).null_count = (inst.cells.filter Cell.isNA).length ∧
      (recordOf c7inst).null_percentage =
        100 * ((recordOf c7inst).null_count : ℚ) / inst.nRows :=
  have h : aget (fileAnalysisOf c7sheets).data_quality "A" = some (recordOf c7inst) := rfl
  ⟨h, hr_c7_null_percentage c7sheets "A" (recordOf c7inst) h⟩

/-- C1: the Salary scenario — raw values [50000, 60000, 70000, "N/A",
80000] ingest with "N/A" as missing (a pandas default NA marker), the
column classifies `numeric`, and the numeric aggregate has count 4 (the
"N/A" excluded) and mean 65000, both in the per-file statistics and in
the pooled charts entry. -/
theorem hr_c1_salary_scenario :
    detect_column_type c1cells "Salary" = .numeric ∧
    (numericData c1cells).length = 4 ∧
    meanQ (numericData c1cells) = 65000 ∧
    aget (analyze_excel_data c1corpus).charts_data.numeric "Salary" =
      some [50000, 60000, 70000, 80000] ∧
    aget (fileAnalysisOf [("Sheet1", c1df)]).numeric_stats "Salary" =
      some (statsOf [50000, 60000, 70000, 80000]) ∧
    (statsOf [(50000 : ℚ), 60000, 70000, 80000]).count = 4 ∧
    (statsOf [(50000 : ℚ), 60000, 70000, 80000]).mean = 65000 := by
  have hnd : numericData c1cells = [50000, 60000, 70000, 80000] := by decide
  have hm : meanQ [(50000 : ℚ), 60000, 70000, 80000] = 65000 := by
    norm_num [meanQ]
  refine ⟨by decide, by decide, ?_, by decide, rfl, by decide, hm⟩
  rw [hnd]
  exact hm

/-- Counterexample for C2: a non-numeric, non-date column of 42 values
with exactly 21 distinct values has a distinct-to-total ratio of
exactly 0.5 yet classifies `text`, not `categorical` — the ratio leg of
step 4 is strict (`< 0.5` at line 112), not inclusive. -/
theorem hr_c2_counterexample :
    isNumericDtype c2cells = false ∧
    dateBranch (cleanSeries c2cells) (pyStrip (pyLower "notes")) = false ∧
    uniqueCount (cleanSeries c2cells) = 21 ∧
    (uniqueCount (cleanSeries c2cells) : ℚ) / (cleanSeries c2cells).length = 0.5 ∧
    detect_column_type c2cells "notes" = .text := by
  have hu : uniqueCount (cleanSeries c2cells) = 21 := by decide
  have hl : (cleanSeries c2cells).length = 42 := by decide
  have hcb : catBranch (cleanSeries c2cells) = false := by
    rw [catBranch, hu, hl]
    norm_num
  refine ⟨by decide, by decide, hu, ?_, ?_⟩
  · rw [hu, hl]
    norm_num
  · exact detect_of_text _ _ (by decide) (by decide) (by decide) hcb

/-- C2 (amended): in step 4 the distinct-count threshold is inclusive —
exactly 20 distinct values yield `categorical` — and a ratio strictly
below 0.5 yields `categorical`, but the ratio threshold is strict: a
ratio of exactly 0.5 yields `categorical` only through the distinct
count being at most 20, and with more than 20 distinct values it yields
`text`. -/
theorem hr_c2_amended (series : List Cell) (name : String)
    (h0 : (cleanSeries series).isEmpty = false)
    (h1 : dateBranch (cleanSeries series) (pyStrip (pyLower name)) = false)
    (h2 : isNumericDtype series = false) :
    (uniqueCount (cleanSeries series) = 20 →
        detect_column_type series name = .categorical) ∧
    ((uniqueCount (cleanSeries series) : ℚ) / (cleanSeries series).length < 0.5 →
        detect_column_type series name = .categorical) ∧
    (20 < uniqueCount (cleanSeries series) →
      (uniqueCount (cleanSeries series) : ℚ) / (cleanSeries series).length = 0.5 →
      detect_column_type series name = .text) := by
  refine ⟨fun hu => ?_, fun hr => ?_, fun hu hr => ?_⟩
  · refine detect_of_cat _ _ h0 h1 h2 ?_
    rw [catBranch, hu]
    simp
  · refine detect_of_cat _ _ h0 h1 h2 ?_
    rw [catBranch]
    simp [hr]
  · refine detect_of_text _ _ h0 h1 h2 ?_
    rw [catBranch, hr]
    simp only [Bool.or_eq_false_iff, decide_eq_false_iff_not]
    constructor
    · omega
    · norm_num

/-- Witness for C2 (amended): 20 distinct string values once each under
a keyword-free name classify `categorical`. -/
theorem hr_c2_amended_witness :
    uniqueCount (cleanSeries c2wcells) = 20 ∧
    detect_column_type c2wcells "notes" = .categorical :=
  ⟨by decide,
   (hr_c2_amended c2wcells "notes" (by decide) (by decide) (by decide)).1 (by decide)⟩

/-- An integer-dtype column has a numeric dtype (all its cells are
numbers, none a string). -/
theorem isNumericDtype_of_integer (series : List Cell)
    (h : isIntegerDtype series = true) : isNumericDtype series = true := by
  rw [isIntegerDtype, List.all_eq_true] at h
  rw [isNumericDtype, List.all_eq_true]
  intro c hc
  have := h c hc
  cases c <;> simp_all [Cell.isStr]

/-- Counterexample for C3: the all-integer column [1, 2, 3, 4, 5] has
distinct ratio 1 > 0.8 and the name hire_id holds the keyword id, yet
the classifier returns `date`, not `identifier`: the date-hint step
runs first, hire is a date keyword, and integer values parse as epoch
timestamps under `pd.to_datetime`. -/
theorem hr_c3_counterexample :
    isIntegerDtype c3cells = true ∧
    (uniqueCount (cleanSeries c3cells) : ℚ) / (cleanSeries c3cells).length > 0.8 ∧
    strContains (pyStrip (pyLower "hire_id")) "id" = true ∧
    detect_column_type c3cells "hire_id" = .date := by
  have hu : uniqueCount (cleanSeries c3cells) = 5 := by decide
  have hl : (cleanSeries c3cells).length = 5 := by decide
  refine ⟨by decide, ?_, by decide, by decide⟩
  rw [hu, hl]
  norm_num

/-- C3 (amended): for every all-integer column whose distinct ratio
exceeds 0.8, provided the date-hint step does not fire (as it would,
for instance, when the name also holds a date keyword, since integer
values parse as dates): a name holding "id" yields `identifier`, and a
name holding none of id, code, number yields `numeric`. -/
theorem hr_c3_amended (series : List Cell) (name : String)
    (h0 : (cleanSeries series).isEmpty = false)
    (hint : isIntegerDtype series = true)
    (hratio : (uniqueCount (cleanSeries series) : ℚ) / (cleanSeries series).length > 0.8)
    (hdate : dateBranch (cleanSeries series) (pyStrip (pyLower name)) = false) :
    (strContains (pyStrip (pyLower name)) "id" = true →
        detect_column_type series name = .identifier) ∧
    ((idKeywords.all fun k => !strContains (pyStrip (pyLower name)) k) = true →
        detect_column_type series name = .numeric) := by
  have hnum := isNumericDtype_of_integer series hint
  constructor
  · intro hid
    refine detect_of_ident _ _ h0 hdate hnum ?_
    rw [identBranch]
    simp [hint, hratio, idKeywords, hid]
  · intro hall
    refine detect_of_num _ _ h0 hdate hnum ?_
    have hany : (idKeywords.any fun k => strContains (pyStrip (pyLower name)) k) = false := by
      rw [List.any_eq_false]
      rw [List.all_eq_true] at hall
      intro k hk
      have := hall k hk
      simpa using this
    rw [identBranch, Bool.and_assoc]
    have h2 : (((uniqueCount (cleanSeries series) : ℚ) / (cleanSeries series).length > 0.8 : Bool) &&
        (idKeywords.any fun k => strContains (pyStrip (pyLower name)) k)) = false := by
      rw [hany, Bool.and_false]
    rw [h2, Bool.and_false]

/-- Witness for C3 (amended): [1, 2, 3] under emp_id classifies
`identifier`; the same values under salary classify `numeric`. -/
theorem hr_c3_amended_witness :
    detect_column_type c3wcells "emp_id" = .identifier ∧
    detect_column_type c3wcells "salary" = .numeric := by
  have hu : uniqueCount (cleanSeries c3wcells) = 3 := by decide
  have hl : (cleanSeries c3wcells).length = 3 := by decide
  have hratio : (uniqueCount (cleanSeries c3wcells) : ℚ) / (cleanSeries c3wcells).length > 0.8 := by
    rw [hu, hl]
    norm_num
  exact ⟨(hr_c3_amended c3wcells "emp_id" (by decide) (by decide) hratio (by decide)).1
      (by decide),
    (hr_c3_amended c3wcells "salary" (by decide) (by decide) hratio (by decide)).2
      (by decide)⟩

/-- C8 is violated: on the pooled values [0, 2] the per-file
`numeric_stats` std is the pandas sample standard deviation (ddof = 1,
squared value 2, so std √2), while the insight line for the same pooled
values states the numpy population standard deviation (ddof = 0,
squared value 1, so std 1). The two emission sites use different
conventions; since both stds are nonnegative square roots, the stds
differ exactly because their squares do. -/
theorem hr_c8_std_convention_bug :
    aget (fileAnalysisOf [("Sheet1", c8df)]).numeric_stats "Score" =
      some (statsOf [0, 2]) ∧
    (analyze_excel_data c8corpus).insight_numeric =
      [("Score", meanQ [0, 2], popVarQ [0, 2])] ∧
    (statsOf [(0 : ℚ), 2]).stdSq = sampleVarQ [0, 2] ∧
    sampleVarQ [(0 : ℚ), 2] = 2 ∧
    popVarQ [(0 : ℚ), 2] = 1 ∧
    sampleVarQ [(0 : ℚ), 2] ≠ popVarQ [0, 2] := by
  have hs : sampleVarQ [(0 : ℚ), 2] = 2 := by
    norm_num [sampleVarQ, sqDevSum, meanQ]
  have hp : popVarQ [(0 : ℚ), 2] = 1 := by
    norm_num [popVarQ, sqDevSum, meanQ]
  refine ⟨rfl, rfl, rfl, hs, hp, ?_⟩
  rw [hs, hp]
  norm_num
